import Mathlib

/-!
Formal model of the vitamin reminder bot (src/vitamin_bot.py, src/config.py).

The three sqlite tables (vitamins, vitamin_logs, active_reminders) are modelled
as lists of records inside a `DB` structure; autoincrement primary keys are
modelled by explicit next-id counters.  Wall-clock values that the Python code
obtains via datetime.now in the America/Chicago zone are passed as explicit
parameters: `today : Nat` is the current calendar date and `now : Int` the
current timestamp in seconds.  Each store method wrapped in try/except in the
source takes an extra `ioFail : Bool` parameter: when it is true the sqlite
call raises, the transaction rolls back and the method returns False with the
database unchanged; when it is false the method runs its success path.
-/

/-- Row of the vitamins table: id, user_id, name, reminder_time, is_active.
The created_at column is never read by the program and is omitted. -/
structure Vitamin where
  id : Nat
  user_id : Nat
  name : String
  reminder_time : String
  is_active : Bool
deriving Repr, DecidableEq

/-- Row of the vitamin_logs table: vitamin_id, user_id, status.
The autoincrement id and the taken_at default column are never read back
by the program and are omitted. -/
structure VitaminLog where
  vitamin_id : Nat
  user_id : Nat
  status : String
deriving Repr, DecidableEq

/-- Row of the active_reminders table. -/
structure ActiveReminder where
  id : Nat
  vitamin_id : Nat
  user_id : Nat
  reminder_date : Nat
  last_reminder : Int
  attempts : Nat
deriving Repr, DecidableEq

/-- The whole sqlite database plus the autoincrement counters. -/
structure DB where
  vitamins : List Vitamin
  vitamin_logs : List VitaminLog
  active_reminders : List ActiveReminder
  next_vitamin_id : Nat
  next_reminder_id : Nat
deriving Repr, DecidableEq

/-- A message sent through the messaging transport (chat id and text);
inline keyboards carry no state and are not modelled. -/
structure SentMessage where
  chat_id : Nat
  text : String
deriving Repr, DecidableEq

/-- config.py: MAX_REMINDER_ATTEMPTS = 3. -/
def MAX_REMINDER_ATTEMPTS : Nat := 3

/-- config.py: REPEAT_REMINDER_INTERVAL = 1800 seconds. -/
def REPEAT_REMINDER_INTERVAL : Int := 1800

/-- config.py REMINDER_TEXT with both placeholders substituted. -/
def reminderText (vitamin_name reminder_time : String) : String :=
  "⏰ Пора принять " ++ vitamin_name ++ " в " ++ reminder_time ++ "!"

/-- The attempt phrase inside config.py REPEAT_REMINDER_TEXT. -/
def attemptPhrase (attempt max_attempts : Nat) : String :=
  "Попытка " ++ toString attempt ++ " из " ++ toString max_attempts

/-- config.py REPEAT_REMINDER_TEXT with all placeholders substituted. -/
def repeatReminderText (vitamin_name : String) (attempt max_attempts : Nat) : String :=
  ("🔄 Напоминание #" ++ toString attempt ++ ": Пора принять " ++ vitamin_name ++ "! (")
    ++ attemptPhrase attempt max_attempts ++ ")"

/-- VitaminDatabase.add_vitamin: INSERT INTO vitamins, is_active defaults to 1;
returns True on success and False when the sqlite call raises. -/
def add_vitamin (db : DB) (user_id : Nat) (name reminder_time : String)
    (ioFail : Bool) : Bool × DB :=
  if ioFail then (false, db)
  else
    (true,
     { db with
        vitamins := db.vitamins ++ [⟨db.next_vitamin_id, user_id, name, reminder_time, true⟩],
        next_vitamin_id := db.next_vitamin_id + 1 })

/-- VitaminDatabase.get_user_vitamins: SELECT rows of the owner with is_active = 1. -/
def get_user_vitamins (db : DB) (user_id : Nat) : List Vitamin :=
  db.vitamins.filter (fun v => v.user_id == user_id && v.is_active)

/-- VitaminDatabase.log_vitamin_intake: INSERT one row into vitamin_logs and,
when status is taken, DELETE the matching active_reminders rows for today,
all in one transaction. -/
def log_vitamin_intake (db : DB) (vitamin_id user_id : Nat) (status : String)
    (today : Nat) (ioFail : Bool) : Bool × DB :=
  if ioFail then (false, db)
  else
    let db1 := { db with vitamin_logs := db.vitamin_logs ++ [⟨vitamin_id, user_id, status⟩] }
    if status == "taken" then
      (true,
       { db1 with
          active_reminders := db1.active_reminders.filter (fun r =>
            !(r.vitamin_id == vitamin_id && r.user_id == user_id
                && r.reminder_date == today)) })
    else (true, db1)

/-- VitaminDatabase.add_active_reminder: SELECT the row for
(vitamin_id, user_id, today); only when none exists, INSERT a fresh row with
last_reminder = now and attempts defaulting to 0.  Returns True on both
paths, False only when the sqlite call raises. -/
def add_active_reminder (db : DB) (vitamin_id user_id : Nat) (today : Nat)
    (now : Int) (ioFail : Bool) : Bool × DB :=
  if ioFail then (false, db)
  else
    if (db.active_reminders.filter (fun r =>
          r.vitamin_id == vitamin_id && r.user_id == user_id
            && r.reminder_date == today)).isEmpty then
      (true,
       { db with
          active_reminders := db.active_reminders ++
            [⟨db.next_reminder_id, vitamin_id, user_id, today, now, 0⟩],
          next_reminder_id := db.next_reminder_id + 1 })
    else (true, db)

/-- One row of the JOIN in get_active_reminders: the vitamins table is joined
ON vitamin_id = v.id, and v.id is the INTEGER PRIMARY KEY, so the join matches
at most one vitamin row, modelled with find?.  The WHERE clause keeps rows of
the owner dated today. -/
def joinReminder (vitamins : List Vitamin) (user_id today : Nat)
    (ar : ActiveReminder) : Option (ActiveReminder × String) :=
  match vitamins.find? (fun v => v.id == ar.vitamin_id) with
  | some v =>
      if ar.user_id == user_id && ar.reminder_date == today then some (ar, v.name)
      else none
  | none => none

/-- VitaminDatabase.get_active_reminders: reminders of the owner for today,
joined with the vitamin name. -/
def get_active_reminders (db : DB) (user_id today : Nat) :
    List (ActiveReminder × String) :=
  db.active_reminders.filterMap (joinReminder db.vitamins user_id today)

/-- The row update performed by update_reminder_attempt on the matching row:
attempts incremented, last_reminder set to now. -/
def bumpReminder (now : Int) (r : ActiveReminder) : ActiveReminder :=
  { r with attempts := r.attempts + 1, last_reminder := now }

/-- VitaminDatabase.update_reminder_attempt: UPDATE the row with the given id,
setting attempts = attempts + 1 and last_reminder = now. -/
def update_reminder_attempt (db : DB) (reminder_id : Nat) (now : Int)
    (ioFail : Bool) : Bool × DB :=
  if ioFail then (false, db)
  else
    (true,
     { db with
        active_reminders := db.active_reminders.map (fun r =>
          if r.id == reminder_id then bumpReminder now r else r) })

/-- VitaminDatabase.delete_vitamin: UPDATE vitamins SET is_active = 0 for the
row matching both id and owner; returns True whether or not a row matched. -/
def delete_vitamin (db : DB) (vitamin_id user_id : Nat) (ioFail : Bool) :
    Bool × DB :=
  if ioFail then (false, db)
  else
    (true,
     { db with
        vitamins := db.vitamins.map (fun v =>
          if v.id == vitamin_id && v.user_id == user_id then
            { v with is_active := false }
          else v) })

/-- One iteration body of the loop in send_vitamin_reminder: on a minute
match, call add_active_reminder (its boolean result is discarded by the
source) and then send the reminder message unconditionally. -/
def evaluatorStep (user_id today : Nat) (now : Int) (current_time_str : String)
    (acc : DB × List SentMessage) (v : Vitamin) : DB × List SentMessage :=
  if v.reminder_time == current_time_str then
    ((add_active_reminder acc.1 v.id user_id today now false).2,
     acc.2 ++ [⟨user_id, reminderText v.name v.reminder_time⟩])
  else acc

/-- The body of send_vitamin_reminder for one user: the vitamin list is read
once, then each vitamin whose reminder_time equals the current minute string
is processed.  Delivery failures are logged and change no state, so a pass is
modelled by the list of attempted sends. -/
def send_vitamin_reminder_user (db : DB) (user_id : Nat)
    (current_time_str : String) (today : Nat) (now : Int) :
    DB × List SentMessage :=
  (get_user_vitamins db user_id).foldl
    (evaluatorStep user_id today now current_time_str) (db, [])

/-- send_vitamin_reminder: the evaluator pass over all ALLOWED_USERS. -/
def send_vitamin_reminder (db : DB) (users : List Nat)
    (current_time_str : String) (today : Nat) (now : Int) :
    DB × List SentMessage :=
  users.foldl
    (fun acc u =>
      let r := send_vitamin_reminder_user acc.1 u current_time_str today now
      (r.1, acc.2 ++ r.2))
    (db, [])

/-- Line 573 of the source applies datetime.fromisoformat to the value read
back from the last_reminder TIMESTAMP column.  Every connection is opened
with detect_types=PARSE_DECLTYPES and a TIMESTAMP converter is registered at
module load, so that value is always a datetime object already (modelled here
by its timestamp), never a str; fromisoformat then raises TypeError whatever
timestamp the object carries, and nothing in send_repeat_reminders catches
it (the only try block wraps bot.send_message). -/
def fromisoformat_on_datetime (_t : Int) : Except String Int :=
  Except.error "TypeError: fromisoformat: argument must be str"

/-- One iteration of the send_repeat_reminders loop, in source order: first
last_time = datetime.fromisoformat(last_reminder), which raises; only if
that conversion returned a value would the elapsed-interval and attempt-cap
test run, followed by update_reminder_attempt and the repeat message built
from the snapshot row. -/
def escalationStep (user_id : Nat) (now : Int) (acc : DB × List SentMessage)
    (p : ActiveReminder × String) : Except String (DB × List SentMessage) :=
  match fromisoformat_on_datetime p.1.last_reminder with
  | Except.error e => Except.error e
  | Except.ok last_time =>
      Except.ok
        (if decide (REPEAT_REMINDER_INTERVAL ≤ now - last_time)
            && decide (p.1.attempts < MAX_REMINDER_ATTEMPTS) then
          ((update_reminder_attempt acc.1 p.1.id now false).2,
           acc.2 ++ [⟨user_id,
             repeatReminderText p.2 (p.1.attempts + 1) MAX_REMINDER_ATTEMPTS⟩])
        else acc)

/-- The loop of send_repeat_reminders over the snapshot rows: an uncaught
exception aborts the pass, leaving the store and the messages already sent as
they stood; the third component is the uncaught exception, if any. -/
def escalationLoop (user_id : Nat) (now : Int) :
    List (ActiveReminder × String) → DB × List SentMessage →
      DB × List SentMessage × Option String
  | [], acc => (acc.1, acc.2, none)
  | p :: l, acc =>
      match escalationStep user_id now acc p with
      | Except.error e => (acc.1, acc.2, some e)
      | Except.ok acc2 => escalationLoop user_id now l acc2

/-- The body of send_repeat_reminders for one user; `enabled` is the effective
repeat-reminders setting for that user (per-user override when present,
otherwise ENABLE_REPEAT_REMINDERS).  When disabled the user is skipped.  The
result carries the store, the messages sent, and the uncaught exception that
aborted the pass, if any. -/
def send_repeat_reminders_user (db : DB) (user_id today : Nat) (now : Int)
    (enabled : Bool) : DB × List SentMessage × Option String :=
  if enabled then
    escalationLoop user_id now (get_active_reminders db user_id today) (db, [])
  else (db, [], none)

/-- A job scheduled through job_queue.run_once in the postpone branch of
handle_callback; run_once fires exactly once after delaySeconds. -/
structure PostponeJob where
  delaySeconds : Nat
  user_id : Nat
  vitamin_id : Nat
  vitamin_name : String
  reminder_time : String
deriving Repr, DecidableEq

/-- The postpone branch of handle_callback: look the vitamin up among the
active vitamins of the owner; when absent, answer with an error text and
schedule nothing; otherwise schedule one run_once job delay*60 seconds ahead
carrying the vitamin data, and answer with the confirmation text.  No store
write occurs on either path. -/
def handle_postpone (db : DB) (jobs : List PostponeJob)
    (user_id delay vitamin_id : Nat) : DB × List PostponeJob × String :=
  match (get_user_vitamins db user_id).find? (fun v => v.id == vitamin_id) with
  | none => (db, jobs, "❌ Витамин не найден.")
  | some v =>
      (db,
       jobs ++ [⟨delay * 60, user_id, vitamin_id, v.name, v.reminder_time⟩],
       "⏰ Напоминание отложено на " ++ toString delay ++ " минут.")

/-- send_postponed_reminder: when the deferred job fires it sends the plain
REMINDER_TEXT message rebuilt from the job data. -/
def run_postponed_job (j : PostponeJob) : SentMessage :=
  ⟨j.user_id, reminderText j.vitamin_name j.reminder_time⟩

/-- The logs of one owner, as selected by the WHERE clause of
show_statistics. -/
def user_logs (db : DB) (user_id : Nat) : List VitaminLog :=
  db.vitamin_logs.filter (fun l => l.user_id == user_id)

/-- The GROUP BY status aggregation of show_statistics: one pair
(status, count) per distinct status value among the given logs. -/
def statusCounts (logs : List VitaminLog) : List (String × Nat) :=
  (logs.map (fun l => l.status)).dedup.map
    (fun s => (s, (logs.filter (fun l => l.status == s)).length))

/-- show_statistics: none when the owner has no log rows (the source answers
with a no-records message); otherwise the two numbers displayed, namely the
taken count and the total shown after the words Всего записей, which the
source also sets to the taken count. -/
def show_statistics (db : DB) (user_id : Nat) : Option (Nat × Nat) :=
  let stats := statusCounts (user_logs db user_id)
  if stats.isEmpty then none
  else
    let taken := ((stats.find? (fun p => p.1 == "taken")).map (fun p => p.2)).getD 0
    some (taken, taken)

/-- The per-record key of the uniqueness invariant on active_reminders. -/
def reminderKey (r : ActiveReminder) : Nat × Nat × Nat :=
  (r.vitamin_id, r.user_id, r.reminder_date)

/-- At most one active reminder row per (vitamin, owner, date). -/
def ReminderKeysNodup (db : DB) : Prop :=
  (db.active_reminders.map reminderKey).Nodup

instance : DecidablePred ReminderKeysNodup := fun db =>
  List.nodupDecidable (db.active_reminders.map reminderKey)

/-- One store operation, as invoked by the handlers and periodic passes. -/
inductive StoreOp where
  | opAddVitamin (user_id : Nat) (name reminder_time : String) (ioFail : Bool)
  | opLogIntake (vitamin_id user_id : Nat) (status : String) (today : Nat) (ioFail : Bool)
  | opAddReminder (vitamin_id user_id : Nat) (today : Nat) (now : Int) (ioFail : Bool)
  | opUpdateAttempt (reminder_id : Nat) (now : Int) (ioFail : Bool)
  | opDeleteVitamin (vitamin_id user_id : Nat) (ioFail : Bool)

/-- The state change of one store operation. -/
def applyStoreOp (db : DB) : StoreOp → DB
  | .opAddVitamin u n t f => (add_vitamin db u n t f).2
  | .opLogIntake vid u s today f => (log_vitamin_intake db vid u s today f).2
  | .opAddReminder vid u today now f => (add_active_reminder db vid u today now f).2
  | .opUpdateAttempt rid now f => (update_reminder_attempt db rid now f).2
  | .opDeleteVitamin vid u f => (delete_vitamin db vid u f).2

/-- A sequence of store operations applied in order. -/
def applyStoreOps (db : DB) (ops : List StoreOp) : DB :=
  ops.foldl applyStoreOp db

/-- The empty store right after init_database (autoincrement starts at 1). -/
def dbEmpty : DB := ⟨[], [], [], 1, 1⟩

/-- A store holding one vitamin of user 7 already inserted. -/
def dbOneVitamin : DB := ⟨[⟨1, 7, "A", "08:00", true⟩], [], [], 2, 1⟩

/-- A store where user 7 tracks vitamin 1 scheduled at 09:00 and an active
reminder for (vitamin 1, user 7, day 0) already exists. -/
def dbWithReminder : DB :=
  ⟨[⟨1, 7, "D", "09:00", true⟩], [], [⟨1, 1, 7, 0, 0, 0⟩], 2, 2⟩

/-- A store whose single active reminder has reached the attempt cap. -/
def dbAtCap : DB :=
  ⟨[⟨1, 7, "D", "09:00", true⟩], [], [⟨1, 1, 7, 0, 0, 3⟩], 2, 2⟩

/-- A store with log rows of mixed statuses for user 7. -/
def dbStats : DB :=
  ⟨[⟨1, 7, "D", "09:00", true⟩],
   [⟨1, 7, "taken"⟩, ⟨1, 7, "postponed"⟩, ⟨1, 7, "taken"⟩],
   [], 2, 1⟩

/-- The messages produced by the evaluator loop over a vitamin list: one
message per vitamin matching the current minute, appended in order. -/
theorem evaluator_foldl_msgs (u today : Nat) (now : Int) (t : String)
    (l : List Vitamin) :
    ∀ (db : DB) (ms : List SentMessage),
    (l.foldl (evaluatorStep u today now t) (db, ms)).2
      = ms ++ (l.filter (fun v => v.reminder_time == t)).map
          (fun v => (⟨u, reminderText v.name v.reminder_time⟩ : SentMessage)) := by
  induction l with
  | nil => intro db ms; simp
  | cons v l ih =>
    intro db ms
    by_cases h : (v.reminder_time == t) = true
    · simp [List.foldl_cons, evaluatorStep, h, List.filter_cons, ih]
    · simp [List.foldl_cons, evaluatorStep, h, List.filter_cons, ih]

/-- Claim C1, counterexample: in dbWithReminder a ReminderRecord for
(vitamin 1, user 7, day 0) already exists, yet the Evaluator pass at the
matching minute still delivers a notification instead of skipping it. -/
theorem claim_C1_counterexample :
    (dbWithReminder.active_reminders.filter (fun r =>
        r.vitamin_id == 1 && r.user_id == 7 && r.reminder_date == 0)).isEmpty = false
    ∧ (send_vitamin_reminder dbWithReminder [7] "09:00" 0 0).2
        = [⟨7, reminderText "D" "09:00"⟩] := by
  decide

/-- Claim C1, amended: on an Evaluator pass, for each active item whose
scheduled time string equals the current minute, add_active_reminder is
invoked but its result is discarded and a notification is delivered
unconditionally: the messages sent are exactly one per matching active item,
independent of whether a ReminderRecord for today already existed. -/
theorem claim_C1_amended (db : DB) (u today : Nat) (now : Int) (t : String) :
    (send_vitamin_reminder_user db u t today now).2
      = ((get_user_vitamins db u).filter (fun v => v.reminder_time == t)).map
          (fun v => (⟨u, reminderText v.name v.reminder_time⟩ : SentMessage)) := by
  simpa using evaluator_foldl_msgs u today now t (get_user_vitamins db u) db []

/-- Claim C2, counterexample: a record for (vitamin 1, user 7, day 0) already
exists in dbWithReminder, yet add_active_reminder returns true, not false. -/
theorem claim_C2_counterexample :
    (dbWithReminder.active_reminders.filter (fun r =>
        r.vitamin_id == 1 && r.user_id == 7 && r.reminder_date == 0)).isEmpty = false
    ∧ (add_active_reminder dbWithReminder 1 7 0 0 false).1 = true := by
  decide

/-- Claim C2, amended: add_active_reminder returns true whenever the sqlite
call does not raise, whether or not a new record was created, and false only
on storage failure; it inserts a fresh record exactly when no record for
(itemId, owner, today) exists, and leaves the store unchanged otherwise. -/
theorem claim_C2_amended (db : DB) (vid uid today : Nat) (now : Int) :
    (add_active_reminder db vid uid today now false).1 = true
    ∧ (add_active_reminder db vid uid today now true).1 = false
    ∧ ((db.active_reminders.filter (fun r =>
          r.vitamin_id == vid && r.user_id == uid && r.reminder_date == today)).isEmpty
            = true →
        (add_active_reminder db vid uid today now false).2.active_reminders
          = db.active_reminders ++ [⟨db.next_reminder_id, vid, uid, today, now, 0⟩])
    ∧ ((db.active_reminders.filter (fun r =>
          r.vitamin_id == vid && r.user_id == uid && r.reminder_date == today)).isEmpty
            = false →
        (add_active_reminder db vid uid today now false).2 = db) := by
  refine ⟨?_, rfl, fun h => ?_, fun h => ?_⟩
  · by_cases h : (db.active_reminders.filter (fun r =>
        r.vitamin_id == vid && r.user_id == uid && r.reminder_date == today)).isEmpty
      <;> simp [add_active_reminder, h]
  · simp [add_active_reminder, h]
  · simp [add_active_reminder, h]

/-- Claim C2, witness: applying the amended theorem to dbWithReminder, where
the record exists, the store is unchanged. -/
theorem claim_C2_witness :
    (add_active_reminder dbWithReminder 1 7 0 0 false).2 = dbWithReminder :=
  (claim_C2_amended dbWithReminder 1 7 0 0).2.2.2 (by decide)

/-- Claim C8, counterexample: two insertions that receive different
autoincrement ids (1 and 2) return the same value, so the value returned by
add_vitamin is not the id of the new row; it is the boolean true. -/
theorem claim_C8_counterexample :
    (add_vitamin dbEmpty 7 "B" "09:00" false).1
      = (add_vitamin dbOneVitamin 7 "B" "09:00" false).1
    ∧ ((add_vitamin dbEmpty 7 "B" "09:00" false).2.vitamins.getLast?.map
        (fun v => v.id)) = some 1
    ∧ ((add_vitamin dbOneVitamin 7 "B" "09:00" false).2.vitamins.getLast?.map
        (fun v => v.id)) = some 2 := by
  decide

/-- Claim C8, amended: add_vitamin inserts the new item with the next
autoincrement id and active flag set, touching nothing else, and returns the
boolean true; on I/O failure it returns false with the store unchanged (the
failure is reported to the caller as a boolean, and the new id is not
returned). -/
theorem claim_C8_amended (db : DB) (u : Nat) (n t : String) :
    (add_vitamin db u n t false).1 = true
    ∧ (add_vitamin db u n t false).2.vitamins
        = db.vitamins ++ [⟨db.next_vitamin_id, u, n, t, true⟩]
    ∧ (add_vitamin db u n t false).2.next_vitamin_id = db.next_vitamin_id + 1
    ∧ (add_vitamin db u n t false).2.vitamin_logs = db.vitamin_logs
    ∧ (add_vitamin db u n t false).2.active_reminders = db.active_reminders
    ∧ add_vitamin db u n t true = (false, db) :=
  ⟨rfl, rfl, rfl, rfl, rfl, rfl⟩

/-- A map whose function fixes every member leaves the list unchanged. -/
theorem list_map_eq_self {α : Type} (f : α → α) :
    ∀ l : List α, (∀ a ∈ l, f a = a) → l.map f = l := by
  intro l h
  induction l with
  | nil => rfl
  | cons a t ih =>
      simp only [List.map_cons, h a (by simp)]
      rw [ih (fun x hx => h x (by simp [hx]))]

/-- Claim C4: log_vitamin_intake appends exactly one log row; with status
taken it additionally removes every ReminderRecord for (itemId, owner, today)
in the same transaction, and with no matching record it appends the log row
and changes nothing else; a storage failure rolls the whole transaction back. -/
theorem claim_C4 (db : DB) (vid uid today : Nat) (status : String) :
    (log_vitamin_intake db vid uid status today false).1 = true
    ∧ (log_vitamin_intake db vid uid status today false).2.vitamin_logs
        = db.vitamin_logs ++ [⟨vid, uid, status⟩]
    ∧ (log_vitamin_intake db vid uid status today false).2.vitamins = db.vitamins
    ∧ (status = "taken" →
        ∀ ar, ar ∈ (log_vitamin_intake db vid uid status today false).2.active_reminders
          ↔ (ar ∈ db.active_reminders
              ∧ ¬(ar.vitamin_id = vid ∧ ar.user_id = uid ∧ ar.reminder_date = today)))
    ∧ (status ≠ "taken" →
        (log_vitamin_intake db vid uid status today false).2.active_reminders
          = db.active_reminders)
    ∧ ((∀ ar ∈ db.active_reminders,
          ¬(ar.vitamin_id = vid ∧ ar.user_id = uid ∧ ar.reminder_date = today)) →
        (log_vitamin_intake db vid uid status today false).2.active_reminders
          = db.active_reminders)
    ∧ log_vitamin_intake db vid uid status today true = (false, db) := by
  refine ⟨?_, ?_, ?_, fun h ar => ?_, fun h => ?_, fun h => ?_, rfl⟩
  · by_cases h : (status == "taken") = true <;> simp [log_vitamin_intake, h]
  · by_cases h : (status == "taken") = true <;> simp [log_vitamin_intake, h]
  · by_cases h : (status == "taken") = true <;> simp [log_vitamin_intake, h]
  · subst h
    simp only [log_vitamin_intake, if_false, Bool.false_eq_true, beq_self_eq_true,
      if_true, List.mem_filter]
    constructor
    · rintro ⟨hmem, hb⟩
      refine ⟨hmem, ?_⟩
      rintro ⟨h1, h2, h3⟩
      simp [h1, h2, h3] at hb
    · rintro ⟨hmem, hn⟩
      refine ⟨hmem, ?_⟩
      simp only [Bool.not_eq_true', Bool.and_eq_false_iff]
      by_cases h1 : ar.vitamin_id = vid
      · by_cases h2 : ar.user_id = uid
        · by_cases h3 : ar.reminder_date = today
          · exact absurd ⟨h1, h2, h3⟩ hn
          · right; simpa using h3
        · left; right; simpa using h2
      · left; left; simpa using h1
  · have hb : (status == "taken") = false := by simpa using h
    simp [log_vitamin_intake, hb]
  · by_cases hs : (status == "taken") = true
    · simp only [log_vitamin_intake, if_false, Bool.false_eq_true, hs, if_true]
      apply List.filter_eq_self.mpr
      intro ar hmem
      have := h ar hmem
      simp only [Bool.not_eq_true', Bool.and_eq_false_iff]
      by_cases h1 : ar.vitamin_id = vid
      · by_cases h2 : ar.user_id = uid
        · by_cases h3 : ar.reminder_date = today
          · exact absurd ⟨h1, h2, h3⟩ this
          · right; simpa using h3
        · left; right; simpa using h2
      · left; left; simpa using h1
    · simp [log_vitamin_intake, hs]

/-- Claim C4, witness: acknowledging vitamin 1 of user 7 in dbWithReminder
appends the one log row and removes the matching reminder. -/
theorem claim_C4_witness :
    (log_vitamin_intake dbWithReminder 1 7 "taken" 0 false).2.vitamin_logs
      = dbWithReminder.vitamin_logs ++ [⟨1, 7, "taken"⟩]
    ∧ (⟨1, 1, 7, 0, 0, 0⟩ : ActiveReminder)
        ∉ (log_vitamin_intake dbWithReminder 1 7 "taken" 0 false).2.active_reminders := by
  have h := claim_C4 dbWithReminder 1 7 0 "taken"
  refine ⟨h.2.1, fun hmem => ?_⟩
  have hiff := (h.2.2.2.1 rfl ⟨1, 1, 7, 0, 0, 0⟩).mp hmem
  exact hiff.2 ⟨rfl, rfl, rfl⟩

/-- Claim C7: handling Postpone(N) for an existing active vitamin leaves the
whole store (in particular every ReminderRecord, its attempt count and its
last_reminder timestamp) unchanged, schedules exactly one one-shot job N*60
seconds ahead, and that job re-delivers the same REMINDER_TEXT content as the
original notification for that vitamin. -/
theorem claim_C7 (db : DB) (jobs : List PostponeJob) (u delay vid : Nat)
    (v : Vitamin)
    (hfind : (get_user_vitamins db u).find? (fun w => w.id == vid) = some v) :
    (handle_postpone db jobs u delay vid).1 = db
    ∧ (handle_postpone db jobs u delay vid).2.1
        = jobs ++ [⟨delay * 60, u, vid, v.name, v.reminder_time⟩]
    ∧ (handle_postpone db jobs u delay vid).2.1.length = jobs.length + 1
    ∧ run_postponed_job ⟨delay * 60, u, vid, v.name, v.reminder_time⟩
        = ⟨u, reminderText v.name v.reminder_time⟩
    ∧ (handle_postpone db jobs u delay vid).1.active_reminders
        = db.active_reminders := by
  simp [handle_postpone, hfind, run_postponed_job]

/-- Claim C7, witness: postponing vitamin 1 of user 7 by 5 minutes in
dbWithReminder changes no store state and schedules one job 300 seconds
ahead. -/
theorem claim_C7_witness :
    (handle_postpone dbWithReminder [] 7 5 1).1 = dbWithReminder
    ∧ (handle_postpone dbWithReminder [] 7 5 1).2.1
        = [⟨300, 7, 1, "D", "09:00"⟩] := by
  have h := claim_C7 dbWithReminder [] 7 5 1 ⟨1, 7, "D", "09:00", true⟩ (by decide)
  exact ⟨h.1, by simpa using h.2.1⟩

/-- Claim C9: delete_vitamin reports success whether or not a row matched,
hides the item from get_user_vitamins, leaves every log row unchanged so that
show_statistics answers exactly as before, and is a no-op on the store when no
row matches. -/
theorem claim_C9 (db : DB) (vid uid : Nat) :
    (delete_vitamin db vid uid false).1 = true
    ∧ (∀ v ∈ get_user_vitamins (delete_vitamin db vid uid false).2 uid, v.id ≠ vid)
    ∧ (delete_vitamin db vid uid false).2.vitamin_logs = db.vitamin_logs
    ∧ (∀ u, show_statistics (delete_vitamin db vid uid false).2 u
        = show_statistics db u)
    ∧ ((∀ v ∈ db.vitamins, ¬(v.id = vid ∧ v.user_id = uid)) →
        (delete_vitamin db vid uid false).2 = db) := by
  refine ⟨rfl, ?_, rfl, fun u => rfl, fun h => ?_⟩
  · intro v hv hvid
    simp only [delete_vitamin, if_false, Bool.false_eq_true, get_user_vitamins,
      List.mem_filter, List.mem_map] at hv
    obtain ⟨⟨w, hw, hfw⟩, hp⟩ := hv
    by_cases hc : (w.id == vid && w.user_id == uid) = true
    · rw [if_pos hc] at hfw
      rw [← hfw] at hp
      simp at hp
    · rw [if_neg hc] at hfw
      subst hfw
      simp only [Bool.and_eq_true, beq_iff_eq] at hc
      simp only [Bool.and_eq_true, beq_iff_eq] at hp
      exact hc ⟨hvid, hp.1⟩
  · have hmap : db.vitamins.map (fun v =>
        if v.id == vid && v.user_id == uid then { v with is_active := false }
        else v) = db.vitamins := by
      apply list_map_eq_self
      intro w hw
      have hc : (w.id == vid && w.user_id == uid) = false := by
        simp only [Bool.and_eq_false_iff]
        by_cases h1 : w.id = vid
        · by_cases h2 : w.user_id = uid
          · exact absurd ⟨h1, h2⟩ (h w hw)
          · right; simpa using h2
        · left; simpa using h1
      rw [if_neg (by simp [hc])]
    calc (delete_vitamin db vid uid false).2
        = { db with vitamins := db.vitamins.map (fun v =>
              if v.id == vid && v.user_id == uid then { v with is_active := false }
              else v) } := rfl
      _ = { db with vitamins := db.vitamins } := by rw [hmap]
      _ = db := rfl

/-- Claim C9, witness: deleting vitamin 1 of user 7 from dbWithReminder
reports success, and the item no longer appears among the active vitamins. -/
theorem claim_C9_witness :
    (delete_vitamin dbWithReminder 1 7 false).1 = true
    ∧ (delete_vitamin dbWithReminder 1 7 false).2.vitamin_logs
        = dbWithReminder.vitamin_logs := by
  exact ⟨(claim_C9 dbWithReminder 1 7).1, (claim_C9 dbWithReminder 1 7).2.2.1⟩

/-- The number extracted by show_statistics from the GROUP BY result is the
count of log rows whose status is exactly taken. -/
theorem statusCounts_taken (logs : List VitaminLog) :
    (((statusCounts logs).find? (fun p => p.1 == "taken")).map (fun p => p.2)).getD 0
      = (logs.filter (fun l => l.status == "taken")).length := by
  cases hf : (statusCounts logs).find? (fun p => p.1 == "taken") with
  | none =>
      have hnone : ∀ l ∈ logs, ¬((l.status == "taken") = true) := by
        intro l hl hst
        have htk : "taken" ∈ (logs.map (fun x => x.status)).dedup := by
          rw [List.mem_dedup]
          exact List.mem_map.mpr ⟨l, hl, by simpa using hst⟩
        have hmem : ("taken", (logs.filter (fun x => x.status == "taken")).length)
            ∈ statusCounts logs :=
          List.mem_map.mpr ⟨"taken", htk, rfl⟩
        have := List.find?_eq_none.mp hf _ hmem
        simp at this
      have hfil : logs.filter (fun l => l.status == "taken") = [] :=
        List.filter_eq_nil_iff.mpr hnone
      simp [hfil]
  | some p =>
      have hp := List.find?_some hf
      have hmem : p ∈ statusCounts logs := List.mem_of_find?_eq_some hf
      obtain ⟨s, hs, hps⟩ := List.mem_map.mp hmem
      cases hps
      simp only [beq_iff_eq] at hp
      subst hp
      simp

/-- Claim C10: whenever show_statistics reports for an owner, both displayed
numbers (the taken count and the total shown as Всего записей) equal the
number of log rows of that owner whose status is exactly taken; rows with any
other status count towards neither. -/
theorem claim_C10 (db : DB) (uid a b : Nat)
    (h : show_statistics db uid = some (a, b)) :
    a = ((user_logs db uid).filter (fun l => l.status == "taken")).length
    ∧ b = ((user_logs db uid).filter (fun l => l.status == "taken")).length := by
  unfold show_statistics at h
  by_cases he : (statusCounts (user_logs db uid)).isEmpty
  · simp [he] at h
  · simp only [he, if_false, Bool.false_eq_true, Option.some_inj, Prod.mk.injEq] at h
    obtain ⟨ha, hb⟩ := h
    rw [statusCounts_taken (user_logs db uid)] at ha hb
    exact ⟨ha.symm, hb.symm⟩

/-- Claim C10, witness: user 7 has three log rows in dbStats, two of them
taken; both displayed numbers are 2. -/
theorem claim_C10_witness :
    show_statistics dbStats 7 = some (2, 2)
    ∧ ((user_logs dbStats 7).filter (fun l => l.status == "taken")).length = 2 := by
  refine ⟨by decide, ?_⟩
  exact (claim_C10 dbStats 7 2 2 (by decide)).1.symm

/-- add_vitamin touches no reminder row, so it preserves key uniqueness. -/
theorem keys_nodup_add_vitamin (db : DB) (u : Nat) (n t : String) (f : Bool)
    (h : ReminderKeysNodup db) : ReminderKeysNodup (add_vitamin db u n t f).2 := by
  cases f <;> simpa [add_vitamin, ReminderKeysNodup] using h

/-- delete_vitamin touches no reminder row, so it preserves key uniqueness. -/
theorem keys_nodup_delete_vitamin (db : DB) (vid uid : Nat) (f : Bool)
    (h : ReminderKeysNodup db) : ReminderKeysNodup (delete_vitamin db vid uid f).2 := by
  cases f <;> simpa [delete_vitamin, ReminderKeysNodup] using h

/-- log_vitamin_intake only deletes reminder rows, so it preserves key
uniqueness. -/
theorem keys_nodup_log_vitamin_intake (db : DB) (vid uid : Nat) (s : String)
    (today : Nat) (f : Bool) (h : ReminderKeysNodup db) :
    ReminderKeysNodup (log_vitamin_intake db vid uid s today f).2 := by
  cases f
  · by_cases hs : (s == "taken") = true
    · have hsub : List.Sublist
          (db.active_reminders.filter (fun r =>
            !(r.vitamin_id == vid && r.user_id == uid && r.reminder_date == today)))
          db.active_reminders := List.filter_sublist _
      have := List.Nodup.sublist (List.Sublist.map reminderKey hsub) h
      simpa [log_vitamin_intake, hs, ReminderKeysNodup] using this
    · simpa [log_vitamin_intake, hs, ReminderKeysNodup] using h
  · simpa [log_vitamin_intake, ReminderKeysNodup] using h

/-- add_active_reminder inserts only after checking that no row with the same
(item, owner, date) key exists, so it preserves key uniqueness. -/
theorem keys_nodup_add_active_reminder (db : DB) (vid uid today : Nat)
    (now : Int) (f : Bool) (h : ReminderKeysNodup db) :
    ReminderKeysNodup (add_active_reminder db vid uid today now f).2 := by
  cases f
  · by_cases he : (db.active_reminders.filter (fun r =>
        r.vitamin_id == vid && r.user_id == uid && r.reminder_date == today)).isEmpty
        = true
    · have hfil : db.active_reminders.filter (fun r =>
          r.vitamin_id == vid && r.user_id == uid && r.reminder_date == today) = [] :=
        List.isEmpty_iff.mp he
      have hnone : ∀ r ∈ db.active_reminders,
          ¬((r.vitamin_id == vid && r.user_id == uid && r.reminder_date == today)
            = true) :=
        List.filter_eq_nil_iff.mp hfil
      have hnotin : ((vid, uid, today) : Nat × Nat × Nat)
          ∉ db.active_reminders.map reminderKey := by
        intro hmem
        obtain ⟨r, hr, hk⟩ := List.mem_map.mp hmem
        apply hnone r hr
        simp only [reminderKey, Prod.mk.injEq] at hk
        simp [hk.1, hk.2.1, hk.2.2]
      have hgoal : ((db.active_reminders ++
          ([⟨db.next_reminder_id, vid, uid, today, now, 0⟩] : List ActiveReminder)).map
            reminderKey).Nodup := by
        rw [List.map_append, List.nodup_append]
        refine ⟨h, by simp, ?_⟩
        intro x hx hxa
        simp only [List.map_cons, List.map_nil, List.mem_singleton] at hxa
        rw [hxa] at hx
        exact hnotin hx
      simpa [add_active_reminder, he, ReminderKeysNodup] using hgoal
    · simpa [add_active_reminder, he, ReminderKeysNodup] using h
  · simpa [add_active_reminder, ReminderKeysNodup] using h

/-- update_reminder_attempt rewrites attempts and last_reminder but never the
key columns, so it preserves key uniqueness. -/
theorem keys_nodup_update_reminder_attempt (db : DB) (rid : Nat) (now : Int)
    (f : Bool) (h : ReminderKeysNodup db) :
    ReminderKeysNodup (update_reminder_attempt db rid now f).2 := by
  cases f
  · have hkeys : ((db.active_reminders.map (fun r =>
        if r.id == rid then bumpReminder now r else r)).map reminderKey)
          = db.active_reminders.map reminderKey := by
      rw [List.map_map]
      apply List.map_congr_left
      intro r _
      by_cases hr : r.id = rid <;> simp [hr, bumpReminder, reminderKey]
    have hgoal : ((db.active_reminders.map (fun r =>
        if r.id == rid then bumpReminder now r else r)).map reminderKey).Nodup := by
      rw [hkeys]; exact h
    simpa [update_reminder_attempt, ReminderKeysNodup] using hgoal
  · simpa [update_reminder_attempt, ReminderKeysNodup] using h

/-- Every single store operation preserves key uniqueness. -/
theorem keys_nodup_applyStoreOp (db : DB) (op : StoreOp)
    (h : ReminderKeysNodup db) : ReminderKeysNodup (applyStoreOp db op) := by
  cases op with
  | opAddVitamin u n t f => exact keys_nodup_add_vitamin db u n t f h
  | opLogIntake vid u s today f => exact keys_nodup_log_vitamin_intake db vid u s today f h
  | opAddReminder vid u today now f => exact keys_nodup_add_active_reminder db vid u today now f h
  | opUpdateAttempt rid now f => exact keys_nodup_update_reminder_attempt db rid now f h
  | opDeleteVitamin vid u f => exact keys_nodup_delete_vitamin db vid u f h

/-- Any sequence of store operations preserves key uniqueness. -/
theorem keys_nodup_applyStoreOps (ops : List StoreOp) :
    ∀ db : DB, ReminderKeysNodup db → ReminderKeysNodup (applyStoreOps db ops) := by
  induction ops with
  | nil => intro db h; exact h
  | cons op ops ih =>
      intro db h
      exact ih (applyStoreOp db op) (keys_nodup_applyStoreOp db op h)

/-- The evaluator fold preserves key uniqueness: its only store write is
add_active_reminder. -/
theorem keys_nodup_evaluator_foldl (u today : Nat) (now : Int) (t : String)
    (l : List Vitamin) :
    ∀ acc : DB × List SentMessage, ReminderKeysNodup acc.1 →
      ReminderKeysNodup ((l.foldl (evaluatorStep u today now t) acc)).1 := by
  induction l with
  | nil => intro acc h; exact h
  | cons v l ih =>
      intro acc h
      rw [List.foldl_cons]
      by_cases hm : (v.reminder_time == t) = true
      · apply ih
        simpa [evaluatorStep, hm] using
          keys_nodup_add_active_reminder acc.1 v.id u today now false h
      · apply ih
        simpa [evaluatorStep, hm] using h

/-- A whole evaluator pass over all users preserves key uniqueness. -/
theorem keys_nodup_send_vitamin_reminder (t : String) (today : Nat) (now : Int)
    (users : List Nat) :
    ∀ (db : DB) (ms : List SentMessage), ReminderKeysNodup db →
      ReminderKeysNodup ((users.foldl
        (fun acc u =>
          let r := send_vitamin_reminder_user acc.1 u t today now
          (r.1, acc.2 ++ r.2)) (db, ms))).1 := by
  induction users with
  | nil => intro db ms h; exact h
  | cons u users ih =>
      intro db ms h
      rw [List.foldl_cons]
      apply ih
      exact keys_nodup_evaluator_foldl u today now t (get_user_vitamins db u) (db, []) h

/-- Claim C3: starting from any store satisfying the at-most-one-record-per
(item, owner, date) invariant, every sequence of store operations and any
further Evaluator pass (in particular a second pass inside the same matching
minute) preserves the invariant, so a second ReminderRecord for the same
(item, owner, date) is never created. -/
theorem claim_C3 (db : DB) (ops : List StoreOp) (users : List Nat) (t : String)
    (today : Nat) (now : Int) (hinv : ReminderKeysNodup db) :
    ReminderKeysNodup (applyStoreOps db ops)
    ∧ ReminderKeysNodup (send_vitamin_reminder (applyStoreOps db ops) users t today now).1 := by
  refine ⟨keys_nodup_applyStoreOps ops db hinv, ?_⟩
  exact keys_nodup_send_vitamin_reminder t today now users (applyStoreOps db ops) []
    (keys_nodup_applyStoreOps ops db hinv)

/-- Claim C3, witness: upserting the already-present reminder twice and then
running the Evaluator again in the matching minute keeps the keys unique. -/
theorem claim_C3_witness :
    ReminderKeysNodup (applyStoreOps dbWithReminder
      [StoreOp.opAddReminder 1 7 0 0 false, StoreOp.opAddReminder 1 7 0 0 false])
    ∧ ReminderKeysNodup (send_vitamin_reminder
        (applyStoreOps dbWithReminder
          [StoreOp.opAddReminder 1 7 0 0 false, StoreOp.opAddReminder 1 7 0 0 false])
        [7] "09:00" 0 0).1 :=
  claim_C3 dbWithReminder
    [StoreOp.opAddReminder 1 7 0 0 false, StoreOp.opAddReminder 1 7 0 0 false]
    [7] "09:00" 0 0 (by decide)


/-- Every iteration of the escalation loop raises at its first statement: the
TIMESTAMP converter already produced a datetime, so fromisoformat gets a
non-str argument whatever row is being processed. -/
theorem escalationStep_raises (user_id : Nat) (now : Int)
    (acc : DB × List SentMessage) (p : ActiveReminder × String) :
    escalationStep user_id now acc p
      = Except.error "TypeError: fromisoformat: argument must be str" := rfl

/-- An escalation pass never changes the store and never sends a message:
with no snapshot row the loop body never runs, and with at least one row the
first iteration raises the uncaught TypeError before the bump and the send. -/
theorem send_repeat_reminders_user_frame (db : DB) (user_id today : Nat)
    (now : Int) (enabled : Bool) :
    (send_repeat_reminders_user db user_id today now enabled).1 = db
    ∧ (send_repeat_reminders_user db user_id today now enabled).2.1 = [] := by
  cases enabled with
  | false => exact ⟨rfl, rfl⟩
  | true =>
      have hgen : ∀ l : List (ActiveReminder × String),
          (escalationLoop user_id now l (db, [])).1 = db
          ∧ (escalationLoop user_id now l (db, [])).2.1 = [] := by
        intro l
        cases l with
        | nil => exact ⟨rfl, rfl⟩
        | cons p t => exact ⟨rfl, rfl⟩
      exact hgen (get_active_reminders db user_id today)

/-- Claim C5: an Escalation Engine pass never bumps a record whose attempts
reached max_attempts or whose last notification is younger than
repeat_interval: such a record stays in the store byte for byte, and the pass
deletes no row.  This holds of the source because the pass aborts with the
uncaught TypeError of the fromisoformat call before reaching
update_reminder_attempt, so no record at all is ever rewritten. -/
theorem claim_C5 (db : DB) (u today : Nat) (now : Int) (enabled : Bool)
    (r : ActiveReminder)
    (hr : r ∈ db.active_reminders)
    (_hinel : MAX_REMINDER_ATTEMPTS ≤ r.attempts
      ∨ now - r.last_reminder < REPEAT_REMINDER_INTERVAL) :
    r ∈ (send_repeat_reminders_user db u today now enabled).1.active_reminders
    ∧ (send_repeat_reminders_user db u today now enabled).1.active_reminders.length
        = db.active_reminders.length := by
  have hfr := send_repeat_reminders_user_frame db u today now enabled
  rw [hfr.1]
  exact ⟨hr, rfl⟩

/-- Claim C5, witness: the capped record of dbAtCap survives an escalation
pass far in the future untouched, and no row is deleted. -/
theorem claim_C5_witness :
    (⟨1, 1, 7, 0, 0, 3⟩ : ActiveReminder)
      ∈ (send_repeat_reminders_user dbAtCap 7 0 10000 true).1.active_reminders
    ∧ (send_repeat_reminders_user dbAtCap 7 0 10000 true).1.active_reminders.length
        = dbAtCap.active_reminders.length :=
  claim_C5 dbAtCap 7 0 10000 true ⟨1, 1, 7, 0, 0, 3⟩ (by decide)
    (Or.inl (by decide))

/-- Claim C6: contrary to the claim and to the spec, an Escalation Engine
pass holding an eligible record (attempts 0 below the cap, 1800 seconds
elapsed since last_reminder) aborts with the uncaught TypeError of the
fromisoformat call before any bump or send: the store is returned unchanged
(attempts stays 0) and no message, in particular none containing
Попытка 1 из 3, is delivered. -/
theorem claim_C6_code_bug :
    (∃ r ∈ dbWithReminder.active_reminders,
        REPEAT_REMINDER_INTERVAL ≤ 1800 - r.last_reminder
        ∧ r.attempts < MAX_REMINDER_ATTEMPTS)
    ∧ (send_repeat_reminders_user dbWithReminder 7 0 1800 true).2.2
        = some "TypeError: fromisoformat: argument must be str"
    ∧ (send_repeat_reminders_user dbWithReminder 7 0 1800 true).1 = dbWithReminder
    ∧ (send_repeat_reminders_user dbWithReminder 7 0 1800 true).2.1 = [] := by
  decide
